import Mathlib

/-
Verification of the mirajazz HID macro-keypad driver core against its
specification.  The definitions below are a shallow embedding of the
protocol engine in `src/device.rs` and the state-diff engine in
`src/state.rs`: bytes are `Nat` values (with `% 256` wherever the Rust
code truncates to `u8`), a transport frame is a `List Nat`, and the
trace of frames written to the transport is a `List (List Nat)`.
-/

/-- Embeds `Device::write_extended_data`: zero-extends a command payload to
`packet_size + 1` bytes before transmission. -/
def writeExtendedData (ps : Nat) (payload : List Nat) : List Nat :=
  payload ++ List.replicate (1 + ps - payload.length) 0

/-- The first handshake frame sent by `Device::initialize` (opcode DIS). -/
def disFrame (ps : Nat) : List Nat :=
  writeExtendedData ps [0x00, 0x43, 0x52, 0x54, 0x00, 0x00, 0x44, 0x49, 0x53]

/-- The second handshake frame sent by `Device::initialize` (opcode LIG with
zero parameters, i.e. zero brightness). -/
def ligZeroFrame (ps : Nat) : List Nat :=
  writeExtendedData ps
    [0x00, 0x43, 0x52, 0x54, 0x00, 0x00, 0x4c, 0x49, 0x47, 0x00, 0x00, 0x00, 0x00]

/-- The brightness frame built by `Device::set_brightness` after clamping;
`pb` is the already-clamped brightness byte. -/
def ligFrame (ps pb : Nat) : List Nat :=
  writeExtendedData ps
    [0x00, 0x43, 0x52, 0x54, 0x00, 0x00, 0x4c, 0x49, 0x47, 0x00, 0x00, pb]

/-- The BAT frame built by `Device::send_image`: two length bytes
(`(len >> 8) as u8`, `len as u8`) and the 1-based key byte (`key + 1`). -/
def batFrame (ps len key : Nat) : List Nat :=
  writeExtendedData ps
    [0x00, 0x43, 0x52, 0x54, 0x00, 0x00, 0x42, 0x41, 0x54, 0x00, 0x00,
     (len >>> 8) % 256, len % 256, (key + 1) % 256]

/-- The CLE frame built by `Device::clear_button_image`: the key byte is
`0xff` for key `0xff`, otherwise `key + 1`. -/
def cleFrame (ps key : Nat) : List Nat :=
  writeExtendedData ps
    [0x00, 0x43, 0x52, 0x54, 0x00, 0x00, 0x43, 0x4c, 0x45, 0x00, 0x00, 0x00,
     if key = 0xff then 0xff else (key + 1) % 256]

/-- The STP commit frame written at the end of `Device::flush` (and by
`clear_all_button_images` on v2 devices). -/
def stpFrame (ps : Nat) : List Nat :=
  writeExtendedData ps [0x00, 0x43, 0x52, 0x54, 0x00, 0x00, 0x53, 0x54, 0x50]

/-- The HAN frame written by `Device::sleep` and at the end of
`Device::shutdown`. -/
def hanFrame (ps : Nat) : List Nat :=
  writeExtendedData ps [0x00, 0x43, 0x52, 0x54, 0x00, 0x00, 0x48, 0x41, 0x4e]

/-- The CONNECT keep-alive frame written by `Device::keep_alive`. -/
def connectFrame (ps : Nat) : List Nat :=
  writeExtendedData ps
    [0x00, 0x43, 0x52, 0x54, 0x00, 0x00, 0x43, 0x4F, 0x4E, 0x4E, 0x45, 0x43, 0x54]

/-- The first frame written by `Device::shutdown`: opcode CLE with
parameters `0x00 0x00 0x44 0x43` (ASCII "DC"). -/
def shutdownCleFrame (ps : Nat) : List Nat :=
  writeExtendedData ps
    [0x00, 0x43, 0x52, 0x54, 0x00, 0x00, 0x43, 0x4c, 0x45, 0x00, 0x00, 0x44, 0x43]

/-- Fuel-indexed page loop of `Device::write_image_data_reports`.  Each
iteration takes `min remaining ps` content bytes, prepends the `0x00`
header byte, and zero-pads the page to `ps + 1` bytes.  The fuel is only
a termination device: `data.length` steps always suffice when `1 ≤ ps`. -/
def writeImageDataReportsAux (ps : Nat) : Nat → List Nat → List (List Nat)
  | _, [] => []
  | 0, _ :: _ => []
  | fuel + 1, b :: rest =>
    ((0 :: (b :: rest).take ps) ++
        List.replicate (ps + 1 - (1 + ((b :: rest).take ps).length)) 0)
      :: writeImageDataReportsAux ps fuel ((b :: rest).drop ps)

/-- Embeds `Device::write_image_data_reports`: the ordered list of pages
written for one image payload.  `ps` is the device packet size; the page
(report) length is `ps + 1`, of which 1 byte is the `0x00` header and
`ps` bytes are payload content. -/
def writeImageDataReports (ps : Nat) (data : List Nat) : List (List Nat) :=
  writeImageDataReportsAux ps data.length data

/-- Embeds `Device::send_image`: the BAT announcement frame followed by the
payload pages. -/
def sendImageFrames (ps key : Nat) (data : List Nat) : List (List Nat) :=
  batFrame ps data.length key :: writeImageDataReports ps data

/-- The mutable connection state relevant to the claims: the `initialized`
atomic flag and the image staging cache (key, payload) in insertion
order. -/
structure ConnState where
  initialized : Bool
  imageCache : List (Nat × List Nat)
deriving DecidableEq

/-- Embeds `Device::initialize` run without interference: if the flag is
set, nothing happens; otherwise the flag is set and the two handshake
frames are written.  Returns the new state and the frames written. -/
def initializeOp (ps : Nat) (s : ConnState) : ConnState × List (List Nat) :=
  if s.initialized then (s, [])
  else ({ s with initialized := true }, [disFrame ps, ligZeroFrame ps])

/-- Embeds `Device::set_brightness`: initialize, then write the LIG frame
with the clamped percentage. -/
def setBrightnessOp (ps percent : Nat) (s : ConnState) : ConnState × List (List Nat) :=
  let r := initializeOp ps s
  (r.1, r.2 ++ [ligFrame ps (min percent 100)])

/-- Embeds `Device::write_image`: append the entry to the staging cache;
no device I/O and no initialization. -/
def writeImageOp (key : Nat) (data : List Nat) (s : ConnState) :
    ConnState × List (List Nat) :=
  ({ s with imageCache := s.imageCache ++ [(key, data)] }, [])

/-- Embeds `Device::clear_button_image`: initialize, then write the CLE
frame for the key. -/
def clearButtonOp (ps key : Nat) (s : ConnState) : ConnState × List (List Nat) :=
  let r := initializeOp ps s
  (r.1, r.2 ++ [cleFrame ps key])

/-- Embeds `Device::clear_all_button_images`: initialize, clear key `0xff`,
then on v2 devices write an STP commit. -/
def clearAllOp (ps : Nat) (isV2 : Bool) (s : ConnState) : ConnState × List (List Nat) :=
  let r := initializeOp ps s
  let r2 := clearButtonOp ps 0xff r.1
  (r2.1, r.2 ++ r2.2 ++ (if isV2 then [stpFrame ps] else []))

/-- Embeds `Device::sleep`: initialize, then write the HAN frame. -/
def sleepOp (ps : Nat) (s : ConnState) : ConnState × List (List Nat) :=
  let r := initializeOp ps s
  (r.1, r.2 ++ [hanFrame ps])

/-- Embeds `Device::keep_alive`: initialize, then write the CONNECT frame. -/
def keepAliveOp (ps : Nat) (s : ConnState) : ConnState × List (List Nat) :=
  let r := initializeOp ps s
  (r.1, r.2 ++ [connectFrame ps])

/-- Embeds `Device::shutdown`: initialize, then write the CLE("DC") frame
and the HAN frame. -/
def shutdownOp (ps : Nat) (s : ConnState) : ConnState × List (List Nat) :=
  let r := initializeOp ps s
  (r.1, r.2 ++ [shutdownCleFrame ps, hanFrame ps])

/-- Write-side embedding of `Device::read_input`: it initializes before
reading; reading writes no frames. -/
def readInputOp (ps : Nat) (s : ConnState) : ConnState × List (List Nat) :=
  initializeOp ps s

/-- Embeds `Device::flush`: under the cache lock, initialize; if the cache
is empty return; otherwise send each staged image in insertion order,
write one STP commit, and clear the cache. -/
def flushOp (ps : Nat) (s : ConnState) : ConnState × List (List Nat) :=
  let r := initializeOp ps s
  if r.1.imageCache = [] then r
  else
    ({ r.1 with imageCache := [] },
     r.2 ++ (r.1.imageCache.map fun e => sendImageFrames ps e.1 e.2).flatten
        ++ [stpFrame ps])

/-
Concurrency model for `Device::initialize`.  The Rust guard is

    if self.initialized.load(Ordering::Acquire) { return Ok(()); }
    self.initialized.store(true, Ordering::Release);

i.e. a separate atomic load and atomic store, followed by the two
handshake writes (each an await point).  We model one call to
`initialize` as a thread whose atomic steps are: load the flag,
branch (returning if it was set, otherwise storing `true`), write the
DIS frame, write the LIG frame.  Two threads share the flag and the
transport trace; a schedule chooses which thread steps next.
-/

/-- Program counter of one in-flight `initialize` call. -/
inductive InitPc
  | start
  | loaded (observed : Bool)
  | stored
  | sentDis
  | done
deriving DecidableEq

/-- Shared state of two concurrent `initialize` calls on one connection:
the `initialized` flag, the trace of frames written to the transport,
and each thread's program counter. -/
structure RaceState where
  initialized : Bool
  frames : List (List Nat)
  pcA : InitPc
  pcB : InitPc
deriving DecidableEq

/-- One atomic step of a single `initialize` thread, mirroring the Rust
statement order: load; early-return if set, else store `true`; write the
DIS frame; write the LIG frame. -/
def threadStep (ps : Nat) (pc : InitPc) (ini : Bool) (fr : List (List Nat)) :
    InitPc × Bool × List (List Nat) :=
  match pc with
  | .start => (.loaded ini, ini, fr)
  | .loaded true => (.done, ini, fr)
  | .loaded false => (.stored, true, fr)
  | .stored => (.sentDis, ini, fr ++ [disFrame ps])
  | .sentDis => (.done, ini, fr ++ [ligZeroFrame ps])
  | .done => (.done, ini, fr)

/-- Advance the thread chosen by the scheduler (`true` = thread A). -/
def raceStep (ps : Nat) (s : RaceState) (t : Bool) : RaceState :=
  if t then
    let r := threadStep ps s.pcA s.initialized s.frames
    { s with pcA := r.1, initialized := r.2.1, frames := r.2.2 }
  else
    let r := threadStep ps s.pcB s.initialized s.frames
    { s with pcB := r.1, initialized := r.2.1, frames := r.2.2 }

/-- Run a schedule of thread choices from a state. -/
def runRace (ps : Nat) (sched : List Bool) (s : RaceState) : RaceState :=
  sched.foldl (raceStep ps) s

/-- A fresh connection with two concurrent `initialize` callers about to
start. -/
def raceStart : RaceState :=
  { initialized := false, frames := [], pcA := .start, pcB := .start }

/-- The interleaving in which both threads perform their atomic load before
either performs its store: A loads, B loads, A runs to completion, B runs
to completion. -/
def raceSched : List Bool :=
  [true, false, true, true, true, false, false, false]

/-
State-diff engine (`src/state.rs`).
-/

/-- Embeds `DeviceStateUpdate` from `src/state.rs`.  Indices are bytes
(`index as u8` in the Rust code), twist deltas are `i8` values modelled
as `Int`. -/
inductive DeviceStateUpdate
  | buttonDown (i : Nat)
  | buttonUp (i : Nat)
  | encoderDown (i : Nat)
  | encoderUp (i : Nat)
  | encoderTwist (i : Nat) (delta : Int)
deriving DecidableEq

/-- Embeds `DeviceInput` from `src/types.rs`. -/
inductive DeviceInput
  | noData
  | buttonStateChange (bs : List Bool)
  | encoderStateChange (es : List Bool)
  | encoderTwist (ds : List Int)
deriving DecidableEq

/-- Embeds `DeviceState`: the stored button and encoder snapshots of a
reader. -/
structure DeviceState where
  buttons : List Bool
  encoders : List Bool
deriving DecidableEq

/-- Embeds the state-change loop of `DeviceStateReader::input_to_updates`:
`zip(new.iter(), stored.iter()).enumerate()`, pushing the updates the
Rust code pushes; the emitted index is `index as u8`, hence `% 256`. -/
def diffUpdates (supportsBoth : Bool) (mkDown mkUp : Nat → DeviceStateUpdate) :
    Nat → List Bool → List Bool → List DeviceStateUpdate
  | _, [], _ => []
  | _, _ :: _, [] => []
  | i, t :: ts, m :: ms =>
    (if supportsBoth then
        (if t ≠ m then (if t then [mkDown (i % 256)] else [mkUp (i % 256)]) else [])
      else
        (if t then [mkDown (i % 256), mkUp (i % 256)] else []))
      ++ diffUpdates supportsBoth mkDown mkUp (i + 1) ts ms

/-- Embeds the `EncoderTwist` loop of `input_to_updates`: one update per
non-zero delta, in iteration order. -/
def twistUpdates : Nat → List Int → List DeviceStateUpdate
  | _, [] => []
  | i, c :: cs =>
    (if c ≠ 0 then [DeviceStateUpdate.encoderTwist (i % 256) c] else [])
      ++ twistUpdates (i + 1) cs

/-- Embeds `DeviceStateReader::input_to_updates`: returns the new stored
state and the list of updates.  State-change samples overwrite the
corresponding snapshot vector with the sample; the twist and no-data
paths leave the state untouched. -/
def inputToUpdates (supportsBoth : Bool) (st : DeviceState) :
    DeviceInput → DeviceState × List DeviceStateUpdate
  | .buttonStateChange bs =>
    ({ st with buttons := bs },
     diffUpdates supportsBoth .buttonDown .buttonUp 0 bs st.buttons)
  | .encoderStateChange es =>
    ({ st with encoders := es },
     diffUpdates supportsBoth .encoderDown .encoderUp 0 es st.encoders)
  | .encoderTwist ds => (st, twistUpdates 0 ds)
  | .noData => (st, [])

/-- Embeds the snapshot initialization in `Device::get_reader`:
`vec![false; key_count]` and `vec![false; encoder_count]`. -/
def initialReaderState (keyCount encoderCount : Nat) : DeviceState :=
  { buttons := List.replicate keyCount false,
    encoders := List.replicate encoderCount false }

/-
Spec-side characterizations, written from the specification's words, to
be compared with the embedded code.
-/

/-- Written from the spec: dual-state diff emits `Down(i)` exactly where
the sample is true and the stored snapshot is false, `Up(i)` exactly
where the sample is false and the stored snapshot is true, in ascending
index order over the indices where both vectors have a value. -/
def specDualDiff (mkDown mkUp : Nat → DeviceStateUpdate) (sample snap : List Bool) :
    List DeviceStateUpdate :=
  ((List.range (min sample.length snap.length)).map fun i =>
    if sample.getD i false && !(snap.getD i false) then [mkDown i]
    else if !(sample.getD i false) && snap.getD i false then [mkUp i]
    else []).flatten

/-- Written from the spec (amended for the zip truncation): single-state
diff emits the synthesized click `Down(i), Up(i)` for every in-range
index whose sample bit is true, independent of the stored values. -/
def specSingleDiff (mkDown mkUp : Nat → DeviceStateUpdate) (sample snap : List Bool) :
    List DeviceStateUpdate :=
  ((List.range (min sample.length snap.length)).map fun i =>
    if sample.getD i false then [mkDown i, mkUp i] else []).flatten

/-- Written from the spec: one `EncoderTwist(i, delta)` per index with a
non-zero delta, in ascending index order. -/
def specTwist (ds : List Int) : List DeviceStateUpdate :=
  ((List.range ds.length).map fun i =>
    if ds.getD i 0 ≠ 0 then [DeviceStateUpdate.encoderTwist i (ds.getD i 0)] else []).flatten

/-- Written from the spec's claim wording for command framing: report-id
byte `0x00`, a four-byte magic beginning with ASCII "CRT", two `0x00`
bytes, a 3-byte opcode, then parameters, zero-padded to `ps + 1`. -/
def claimedFrameShape (ps : Nat) (frame : List Nat) : Prop :=
  ∃ magic opcode params, magic.length = 4 ∧ opcode.length = 3 ∧
    frame = writeExtendedData ps (0x00 :: (magic ++ ([0x00, 0x00] ++ (opcode ++ params))))

/-- The frame layout the code actually uses: report-id `0x00`, the 3-byte
ASCII magic "CRT", two `0x00` bytes, a 3-byte ASCII (uppercase) opcode,
then parameters; the whole frame zero-padded to exactly `ps + 1` bytes. -/
def goodFrame (ps : Nat) (frame : List Nat) : Prop :=
  ∃ opcode params, opcode.length = 3 ∧ (∀ b ∈ opcode, 0x41 ≤ b ∧ b ≤ 0x5a) ∧
    frame = writeExtendedData ps ([0x00, 0x43, 0x52, 0x54, 0x00, 0x00] ++ (opcode ++ params)) ∧
    frame.length = ps + 1

/-
Theorems.
-/

lemma writeExtendedData_length (ps : Nat) (payload : List Nat)
    (h : payload.length ≤ ps + 1) : (writeExtendedData ps payload).length = ps + 1 := by
  simp only [writeExtendedData, List.length_append, List.length_replicate]
  omega

lemma goodFrame_of (ps : Nat) (opcode params frame : List Nat)
    (h3 : opcode.length = 3) (hascii : ∀ b ∈ opcode, 0x41 ≤ b ∧ b ≤ 0x5a)
    (heq : frame =
      writeExtendedData ps ([0x00, 0x43, 0x52, 0x54, 0x00, 0x00] ++ (opcode ++ params)))
    (hlen : 9 + params.length ≤ ps + 1) : goodFrame ps frame := by
  refine ⟨opcode, params, h3, hascii, heq, ?_⟩
  rw [heq]
  apply writeExtendedData_length
  simp only [List.length_append, List.length_cons, List.length_nil, h3]
  omega

/-- Claim C1 (code_bug evidence): the guard in `Device::initialize` is a
separate atomic load followed by an atomic store, not a single atomic
check-and-set.  In the interleaving where both concurrent first callers
perform their load before either performs its store, both observe the
connection as uninitialized and both send the handshake, so the
transport receives four handshake frames (DIS, LIG, DIS, LIG) instead
of exactly two, with both calls running to completion. -/
theorem claim_C1_initialize_race :
    (runRace 512 raceSched raceStart).frames
        = [disFrame 512, ligZeroFrame 512, disFrame 512, ligZeroFrame 512]
      ∧ (runRace 512 raceSched raceStart).pcA = InitPc.done
      ∧ (runRace 512 raceSched raceStart).pcB = InitPc.done :=
  ⟨rfl, rfl, rfl⟩

/-- Claim C2: on an initialized connection, after staging `(k1, A)` then
`(k2, B)`, `flush` writes exactly `BAT(len A, k1)`, the pages of `A`,
`BAT(len B, k2)`, the pages of `B`, then one STP commit, and empties the
staging cache; on an empty cache, `flush` writes nothing and leaves the
state unchanged. -/
theorem claim_C2_flush_order (ps : Nat) (s : ConnState) (hinit : s.initialized = true) :
    (∀ k1 k2 A B, s.imageCache = [(k1, A), (k2, B)] →
        flushOp ps s =
          ({ initialized := true, imageCache := [] },
           batFrame ps A.length k1 ::
             (writeImageDataReports ps A ++
               (batFrame ps B.length k2 ::
                 (writeImageDataReports ps B ++ [stpFrame ps])))))
      ∧ (s.imageCache = [] → flushOp ps s = (s, [])) := by
  obtain ⟨ini, cache⟩ := s
  simp only at hinit
  subst hinit
  constructor
  · intro k1 k2 A B h
    simp only at h
    subst h
    simp [flushOp, initializeOp, sendImageFrames]
  · intro h
    simp only at h
    subst h
    simp [flushOp, initializeOp]

/-- Witness for C2 at a concrete initialized connection holding two staged
images. -/
theorem claim_C2_flush_order_witness :
    flushOp 512 ⟨true, [(0, [9, 9, 9]), (2, [7])]⟩ =
      ({ initialized := true, imageCache := [] },
       batFrame 512 [9, 9, 9].length 0 ::
         (writeImageDataReports 512 [9, 9, 9] ++
           (batFrame 512 [7].length 2 ::
             (writeImageDataReports 512 [7] ++ [stpFrame 512])))) :=
  (claim_C2_flush_order 512 ⟨true, [(0, [9, 9, 9]), (2, [7])]⟩ rfl).1 0 2 [9, 9, 9] [7] rfl

/-- Claim C4 (counterexample): the frames the code writes do not have the
claimed layout "report-id byte, 4-byte magic, two 0x00 bytes, 3-byte
opcode": in the DIS handshake frame the opcode already starts at byte
offset 6, so byte 6 is 0x44 where the claimed layout requires 0x00. -/
theorem claim_C4_counterexample : ¬ claimedFrameShape 512 (disFrame 512) := by
  rintro ⟨magic, opcode, params, hm, ho, heq⟩
  obtain ⟨a, b, c, d, rfl⟩ : ∃ a b c d, magic = [a, b, c, d] := by
    rcases magic with _ | ⟨a, _ | ⟨b, _ | ⟨c, _ | ⟨d, _ | t⟩⟩⟩⟩ <;>
      simp only [List.length_nil, List.length_cons] at hm <;>
      first
        | exact ⟨a, b, c, d, rfl⟩
        | omega
  have h7 := congrArg (fun l => l.take 7) heq
  have hL : (disFrame 512).take 7 = [0x00, 0x43, 0x52, 0x54, 0x00, 0x00, 0x44] := by decide
  simp only at h7
  rw [hL] at h7
  simp [writeExtendedData] at h7

/-- Claim C4 (amended): every command frame the code writes consists of the
report-id byte 0x00, the 3-byte ASCII magic "CRT", two 0x00 bytes, a
3-byte ASCII opcode, then opcode-specific parameter bytes, and is
zero-padded to exactly `packet_size + 1` bytes. -/
theorem claim_C4_framing (ps : Nat) (hps : 13 ≤ ps) (pb len key k2 : Nat) :
    goodFrame ps (disFrame ps) ∧ goodFrame ps (ligZeroFrame ps)
      ∧ goodFrame ps (ligFrame ps pb) ∧ goodFrame ps (batFrame ps len key)
      ∧ goodFrame ps (cleFrame ps k2) ∧ goodFrame ps (stpFrame ps)
      ∧ goodFrame ps (hanFrame ps) ∧ goodFrame ps (connectFrame ps)
      ∧ goodFrame ps (shutdownCleFrame ps) := by
  refine ⟨?_, ?_, ?_, ?_, ?_, ?_, ?_, ?_, ?_⟩
  · exact goodFrame_of ps [0x44, 0x49, 0x53] [] _ rfl (by decide) rfl (by simp; omega)
  · exact goodFrame_of ps [0x4c, 0x49, 0x47] [0x00, 0x00, 0x00, 0x00] _ rfl (by decide) rfl
      (by simp; omega)
  · exact goodFrame_of ps [0x4c, 0x49, 0x47] [0x00, 0x00, pb] _ rfl (by decide) rfl
      (by simp; omega)
  · exact goodFrame_of ps [0x42, 0x41, 0x54]
      [0x00, 0x00, (len >>> 8) % 256, len % 256, (key + 1) % 256] _ rfl (by decide) rfl
      (by simp; omega)
  · exact goodFrame_of ps [0x43, 0x4c, 0x45]
      [0x00, 0x00, 0x00, if k2 = 0xff then 0xff else (k2 + 1) % 256] _ rfl (by decide) rfl
      (by simp; omega)
  · exact goodFrame_of ps [0x53, 0x54, 0x50] [] _ rfl (by decide) rfl (by simp; omega)
  · exact goodFrame_of ps [0x48, 0x41, 0x4e] [] _ rfl (by decide) rfl (by simp; omega)
  · exact goodFrame_of ps [0x43, 0x4F, 0x4E] [0x4E, 0x45, 0x43, 0x54] _ rfl (by decide) rfl
      (by simp; omega)
  · exact goodFrame_of ps [0x43, 0x4c, 0x45] [0x00, 0x00, 0x44, 0x43] _ rfl (by decide) rfl
      (by simp; omega)

/-- Witness for the amended C4 at packet size 512 and concrete parameter
values. -/
theorem claim_C4_framing_witness :
    13 ≤ 512 ∧
      (goodFrame 512 (disFrame 512) ∧ goodFrame 512 (ligZeroFrame 512)
        ∧ goodFrame 512 (ligFrame 512 100) ∧ goodFrame 512 (batFrame 512 1000 3)
        ∧ goodFrame 512 (cleFrame 512 7) ∧ goodFrame 512 (stpFrame 512)
        ∧ goodFrame 512 (hanFrame 512) ∧ goodFrame 512 (connectFrame 512)
        ∧ goodFrame 512 (shutdownCleFrame 512)) :=
  ⟨by decide, claim_C4_framing 512 (by decide) 100 1000 3 7⟩

/-- Claim C8 (counterexample): `write_image` does not ensure
initialization: on a fresh (uninitialized) connection it stages the
image, leaves the connection uninitialized, and writes no handshake
frame to the transport. -/
theorem claim_C8_counterexample :
    (writeImageOp 0 [1] ⟨false, []⟩).1.initialized = false
      ∧ (writeImageOp 0 [1] ⟨false, []⟩).2 = [] :=
  ⟨rfl, rfl⟩

/-- Claim C8 (amended): every listed public operation except `write_image`
(namely set_brightness, flush, read_input, clear_button_image,
clear_all_button_images, sleep, keep_alive and shutdown) runs the lazy
initialization first: started on an uninitialized connection it leaves
the connection initialized and the two handshake frames are the first
frames it writes.  `write_image` only stages the image: it performs no
transport write and does not initialize. -/
theorem claim_C8_lazy_init (ps percent key k2 : Nat) (data : List Nat) (isV2 : Bool)
    (s : ConnState) (h : s.initialized = false) :
    ((setBrightnessOp ps percent s).1.initialized = true
        ∧ (setBrightnessOp ps percent s).2.take 2 = [disFrame ps, ligZeroFrame ps])
      ∧ ((flushOp ps s).1.initialized = true
        ∧ (flushOp ps s).2.take 2 = [disFrame ps, ligZeroFrame ps])
      ∧ ((readInputOp ps s).1.initialized = true
        ∧ (readInputOp ps s).2.take 2 = [disFrame ps, ligZeroFrame ps])
      ∧ ((clearButtonOp ps k2 s).1.initialized = true
        ∧ (clearButtonOp ps k2 s).2.take 2 = [disFrame ps, ligZeroFrame ps])
      ∧ ((clearAllOp ps isV2 s).1.initialized = true
        ∧ (clearAllOp ps isV2 s).2.take 2 = [disFrame ps, ligZeroFrame ps])
      ∧ ((sleepOp ps s).1.initialized = true
        ∧ (sleepOp ps s).2.take 2 = [disFrame ps, ligZeroFrame ps])
      ∧ ((keepAliveOp ps s).1.initialized = true
        ∧ (keepAliveOp ps s).2.take 2 = [disFrame ps, ligZeroFrame ps])
      ∧ ((shutdownOp ps s).1.initialized = true
        ∧ (shutdownOp ps s).2.take 2 = [disFrame ps, ligZeroFrame ps])
      ∧ ((writeImageOp key data s).1.initialized = false
        ∧ (writeImageOp key data s).2 = []) := by
  obtain ⟨ini, cache⟩ := s
  simp only at h
  subst h
  refine ⟨?_, ?_, ?_, ?_, ?_, ?_, ?_, ?_, ?_⟩
  · exact ⟨rfl, rfl⟩
  · constructor
    · by_cases hc : cache = [] <;>
        simp [flushOp, initializeOp, hc]
    · by_cases hc : cache = [] <;>
        simp [flushOp, initializeOp, hc]
  · exact ⟨rfl, rfl⟩
  · exact ⟨rfl, rfl⟩
  · exact ⟨rfl, rfl⟩
  · exact ⟨rfl, rfl⟩
  · exact ⟨rfl, rfl⟩
  · exact ⟨rfl, rfl⟩
  · exact ⟨rfl, rfl⟩

/-- Witness for the amended C8 on a fresh connection with one staged
image. -/
theorem claim_C8_lazy_init_witness :
    (setBrightnessOp 512 50 ⟨false, [(0, [1])]⟩).1.initialized = true
      ∧ (flushOp 512 ⟨false, [(0, [1])]⟩).2.take 2 = [disFrame 512, ligZeroFrame 512]
      ∧ (writeImageOp 1 [2] ⟨false, [(0, [1])]⟩).1.initialized = false :=
  ⟨(claim_C8_lazy_init 512 50 1 0 [2] false ⟨false, [(0, [1])]⟩ rfl).1.1,
   (claim_C8_lazy_init 512 50 1 0 [2] false ⟨false, [(0, [1])]⟩ rfl).2.1.2,
   (claim_C8_lazy_init 512 50 1 0 [2] false ⟨false, [(0, [1])]⟩ rfl).2.2.2.2.2.2.2.2.1⟩

/-- Claim C10: for every key other than 0xFF the CLE frame's key byte is
`key + 1`, and the frame for key 0xFE is byte-identical to the clear-all
frame, the one `clear_button_image(0xFF)` emits. -/
theorem claim_C10_clear_key_alias (ps key : Nat) (hk : key < 255) :
    cleFrame ps key =
        writeExtendedData ps
          [0x00, 0x43, 0x52, 0x54, 0x00, 0x00, 0x43, 0x4c, 0x45, 0x00, 0x00, 0x00, key + 1]
      ∧ cleFrame ps 0xfe = cleFrame ps 0xff := by
  constructor
  · simp only [cleFrame]
    rw [if_neg (by omega), Nat.mod_eq_of_lt (by omega)]
  · exact congrArg (writeExtendedData ps) (by norm_num)

lemma writeImageDataReportsAux_eq (ps : Nat) (hps : 1 ≤ ps) :
    ∀ fuel data, data.length ≤ fuel →
      writeImageDataReportsAux ps fuel data = writeImageDataReportsAux ps data.length data := by
  intro fuel
  induction fuel using Nat.strong_induction_on with
  | _ fuel ih =>
    intro data hlen
    cases data with
    | nil => cases fuel <;> rfl
    | cons b rest =>
      cases fuel with
      | zero => simp at hlen
      | succ f =>
        have hd : ((b :: rest).drop ps).length = rest.length + 1 - ps := by
          simp [List.length_drop]
        have h1 : ((b :: rest).drop ps).length ≤ f := by
          simp only [List.length_cons] at hlen
          omega
        have h2 : ((b :: rest).drop ps).length ≤ rest.length := by omega
        simp only [writeImageDataReportsAux, List.length_cons]
        rw [ih f (by omega) _ h1, ih rest.length (by simp only [List.length_cons] at hlen; omega) _ h2]

/-- One unfolding of the page loop on a non-empty payload. -/
lemma writeImageDataReports_cons (ps : Nat) (hps : 1 ≤ ps) (data : List Nat)
    (hne : data ≠ []) :
    writeImageDataReports ps data =
      ((0 :: data.take ps) ++ List.replicate (ps + 1 - (1 + (data.take ps).length)) 0)
        :: writeImageDataReports ps (data.drop ps) := by
  cases data with
  | nil => exact absurd rfl hne
  | cons b rest =>
    show writeImageDataReportsAux ps (rest.length + 1) (b :: rest) = _
    rw [writeImageDataReportsAux]
    exact congrArg _ (writeImageDataReportsAux_eq ps hps rest.length _
      (by simp only [List.length_drop, List.length_cons]; omega))

/-- Each page written by the pagewriter is exactly `ps + 1` bytes and
starts with the 0x00 header byte. -/
lemma writeImageDataReports_shape (ps : Nat) (hps : 1 ≤ ps) :
    ∀ data : List Nat, ∀ p ∈ writeImageDataReports ps data,
      p.length = ps + 1 ∧ p.head? = some 0 := by
  suffices h : ∀ n (data : List Nat), data.length ≤ n →
      ∀ p ∈ writeImageDataReports ps data, p.length = ps + 1 ∧ p.head? = some 0 by
    exact fun data => h data.length data (Nat.le_refl _)
  intro n
  induction n using Nat.strong_induction_on with
  | _ n ih =>
    intro data hn
    cases data with
    | nil => intro p hp; simp [writeImageDataReports, writeImageDataReportsAux] at hp
    | cons b rest =>
      simp only [List.length_cons] at hn
      intro p hp
      rw [writeImageDataReports_cons ps hps _ (by simp), List.mem_cons] at hp
      rcases hp with hp | hp
      · subst hp
        constructor
        · have ht : ((b :: rest).take ps).length ≤ ps := by
            simp [List.length_take]
          simp only [List.length_append, List.length_cons, List.length_replicate]
          omega
        · rfl
      · exact ih (n - 1) (by omega) ((b :: rest).drop ps)
          (by simp only [List.length_drop, List.length_cons]; omega) p hp

/-- The pagewriter yields exactly `ceil (L / ps)` pages for a payload of
length `L`. -/
lemma writeImageDataReports_count (ps : Nat) (hps : 1 ≤ ps) :
    ∀ data : List Nat,
      (writeImageDataReports ps data).length = (data.length + ps - 1) / ps := by
  suffices h : ∀ n (data : List Nat), data.length ≤ n →
      (writeImageDataReports ps data).length = (data.length + ps - 1) / ps by
    exact fun data => h data.length data (Nat.le_refl _)
  intro n
  induction n using Nat.strong_induction_on with
  | _ n ih =>
    intro data hn
    cases data with
    | nil =>
      have he : writeImageDataReports ps [] = [] := rfl
      rw [he]
      simp only [List.length_nil, Nat.zero_add]
      symm
      exact Nat.div_eq_of_lt (by omega)
    | cons b rest =>
      simp only [List.length_cons] at hn
      rw [writeImageDataReports_cons ps hps _ (by simp)]
      rw [List.length_cons, ih (n - 1) (by omega) ((b :: rest).drop ps)
        (by simp only [List.length_drop, List.length_cons]; omega)]
      simp only [List.length_drop, List.length_cons]
      have hR : rest.length + 1 + ps - 1 = (rest.length + 1 - 1) + 1 * ps := by omega
      rw [hR, Nat.add_mul_div_right _ _ (by omega : 0 < ps)]
      rcases Nat.lt_or_ge (rest.length + 1) ps with hc | hc
      · rw [show rest.length + 1 - ps = 0 from by omega,
          Nat.div_eq_of_lt (by omega : 0 + ps - 1 < ps),
          Nat.div_eq_of_lt (by omega : rest.length + 1 - 1 < ps)]
      · rw [show rest.length + 1 - ps + ps - 1 = rest.length + 1 - 1 from by omega]

/-- Concatenating the content bytes of all pages, truncated to the payload
length, reproduces the payload. -/
lemma writeImageDataReports_concat (ps : Nat) (hps : 1 ≤ ps) :
    ∀ data : List Nat,
      ((writeImageDataReports ps data).map (List.drop 1)).flatten.take data.length = data := by
  suffices h : ∀ n (data : List Nat), data.length ≤ n →
      ((writeImageDataReports ps data).map (List.drop 1)).flatten.take data.length = data by
    exact fun data => h data.length data (Nat.le_refl _)
  intro n
  induction n using Nat.strong_induction_on with
  | _ n ih =>
    intro data hn
    cases data with
    | nil => rfl
    | cons b rest =>
      simp only [List.length_cons] at hn
      rw [writeImageDataReports_cons ps hps _ (by simp)]
      have hdrop1 :
          List.drop 1 ((0 :: (b :: rest).take ps) ++
              List.replicate (ps + 1 - (1 + ((b :: rest).take ps).length)) 0)
            = (b :: rest).take ps ++
                List.replicate (ps + 1 - (1 + ((b :: rest).take ps).length)) 0 := by
        rw [List.cons_append, List.drop_succ_cons, List.drop_zero]
      simp only [List.map_cons, List.flatten_cons, hdrop1, List.append_assoc]
      rw [List.take_append_eq_append_take]
      rcases Nat.lt_or_ge rest.length ps with hc | hc
      · have ht : (b :: rest).take ps = b :: rest :=
          List.take_of_length_le (by simp only [List.length_cons]; omega)
        rw [ht]
        rw [show (b :: rest).length - (b :: rest).length = 0 from by omega,
          List.take_length, List.take_zero, List.append_nil]
      · have htl : ((b :: rest).take ps).length = ps := by
          simp only [List.length_take, List.length_cons]
          omega
        have hrep : ps + 1 - (1 + ((b :: rest).take ps).length) = 0 := by omega
        rw [hrep, List.replicate_zero, List.nil_append,
          List.take_of_length_le (by simp only [List.length_cons]; omega : ((b :: rest).take ps).length ≤ (b :: rest).length)]
        rw [htl, show (b :: rest).length - ps = ((b :: rest).drop ps).length from by
            simp only [List.length_drop]]
        rw [ih (n - 1) (by omega) ((b :: rest).drop ps)
          (by simp only [List.length_drop, List.length_cons]; omega), List.take_append_drop]

set_option maxRecDepth 4000 in
/-- Claim C3 (counterexample): for packet size 512 and a 512-byte payload
the code writes 1 page, not the `ceil (512 / 511) = 2` pages the claim's
`packet_size - 1` content-bytes-per-page formula predicts. -/
theorem claim_C3_counterexample :
    (writeImageDataReports 512 (List.replicate 512 7)).length ≠
      ((List.replicate 512 7).length + (512 - 1) - 1) / (512 - 1) := by
  decide

/-- Claim C3 (amended): each page is `packet_size + 1` bytes, a leading
0x00 header byte followed by `packet_size` content bytes (the last page
zero-padded); pages are produced in order, their content concatenated
and truncated to the payload length reproduces the payload, and the page
count is `ceil (L / packet_size)`. -/
theorem claim_C3_pagewriter (ps : Nat) (hps : 1 ≤ ps) (data : List Nat) :
    (∀ p ∈ writeImageDataReports ps data, p.length = ps + 1 ∧ p.head? = some 0)
      ∧ (writeImageDataReports ps data).length = (data.length + ps - 1) / ps
      ∧ ((writeImageDataReports ps data).map (List.drop 1)).flatten.take data.length
          = data :=
  ⟨writeImageDataReports_shape ps hps data, writeImageDataReports_count ps hps data,
   writeImageDataReports_concat ps hps data⟩

/-- Witness for the amended C3 at packet size 512 and a one-byte payload. -/
theorem claim_C3_pagewriter_witness :
    1 ≤ 512 ∧
      ((∀ p ∈ writeImageDataReports 512 [7], p.length = 512 + 1 ∧ p.head? = some 0)
        ∧ (writeImageDataReports 512 [7]).length = ([7] : List Nat).length.succ.pred
        ∧ ((writeImageDataReports 512 [7]).map (List.drop 1)).flatten.take
            ([7] : List Nat).length = [7]) := by
  refine ⟨by decide, ?_⟩
  have h := claim_C3_pagewriter 512 (by decide) [7]
  exact ⟨h.1, h.2.1.trans (by decide), h.2.2⟩

lemma diffUpdates_dual_eq (d u : Nat → DeviceStateUpdate) :
    ∀ (sample snap : List Bool) (i : Nat), i + min sample.length snap.length ≤ 256 →
      diffUpdates true d u i sample snap
        = ((List.range (min sample.length snap.length)).map fun j =>
            if sample.getD j false && !(snap.getD j false) then [d (i + j)]
            else if !(sample.getD j false) && snap.getD j false then [u (i + j)]
            else []).flatten := by
  intro sample
  induction sample with
  | nil => intro snap i h; simp [diffUpdates]
  | cons t ts ihs =>
    intro snap i h
    cases snap with
    | nil => simp [diffUpdates]
    | cons m ms =>
      simp only [List.length_cons, Nat.succ_min_succ] at h ⊢
      have hi : i % 256 = i := Nat.mod_eq_of_lt (by omega)
      have hrec := ihs ms (i + 1) (by omega)
      simp only [diffUpdates, hrec]
      rw [List.range_succ_eq_map]
      simp only [List.map_cons, List.flatten_cons, List.map_map]
      congr 1
      · simp only [List.getD_cons_zero, Nat.add_zero, hi]
        cases t <;> cases m <;> simp
      · congr 1
        apply List.map_congr_left
        intro j hj
        simp only [Function.comp_apply, List.getD_cons_succ]
        rw [show i + (j + 1) = i + 1 + j from by omega]

lemma diffUpdates_single_eq (d u : Nat → DeviceStateUpdate) :
    ∀ (sample snap : List Bool) (i : Nat), i + min sample.length snap.length ≤ 256 →
      diffUpdates false d u i sample snap
        = ((List.range (min sample.length snap.length)).map fun j =>
            if sample.getD j false then [d (i + j), u (i + j)] else []).flatten := by
  intro sample
  induction sample with
  | nil => intro snap i h; simp [diffUpdates]
  | cons t ts ihs =>
    intro snap i h
    cases snap with
    | nil => simp [diffUpdates]
    | cons m ms =>
      simp only [List.length_cons, Nat.succ_min_succ] at h ⊢
      have hi : i % 256 = i := Nat.mod_eq_of_lt (by omega)
      have hrec := ihs ms (i + 1) (by omega)
      simp only [diffUpdates, hrec]
      rw [List.range_succ_eq_map]
      simp only [List.map_cons, List.flatten_cons, List.map_map]
      congr 1
      · simp only [List.getD_cons_zero, Nat.add_zero, hi]
        cases t <;> simp
      · congr 1
        apply List.map_congr_left
        intro j hj
        simp only [Function.comp_apply, List.getD_cons_succ]
        rw [show i + (j + 1) = i + 1 + j from by omega]

lemma twistUpdates_eq :
    ∀ (ds : List Int) (i : Nat), i + ds.length ≤ 256 →
      twistUpdates i ds
        = ((List.range ds.length).map fun j =>
            if ds.getD j 0 ≠ 0 then
              [DeviceStateUpdate.encoderTwist (i + j) (ds.getD j 0)]
            else []).flatten := by
  intro ds
  induction ds with
  | nil => intro i h; simp [twistUpdates]
  | cons c cs ihs =>
    intro i h
    simp only [List.length_cons] at h ⊢
    have hi : i % 256 = i := Nat.mod_eq_of_lt (by omega)
    have hrec := ihs (i + 1) (by omega)
    simp only [twistUpdates, hrec]
    rw [List.range_succ_eq_map]
    simp only [List.map_cons, List.flatten_cons, List.map_map]
    congr 1
    · simp only [List.getD_cons_zero, Nat.add_zero, hi]
    · congr 1
      apply List.map_congr_left
      intro j hj
      simp only [Function.comp_apply, List.getD_cons_succ]
      rw [show i + (j + 1) = i + 1 + j from by omega]

/-- Claim C5: on a dual-state device, a button (or encoder) state-change
sample yields `Down(i)` exactly where the stored snapshot is false and
the sample is true, `Up(i)` exactly where the stored snapshot is true
and the sample is false, and nothing for unchanged indices, in ascending
index order. -/
theorem claim_C5_dual_state_diff (st : DeviceState) (sample : List Bool)
    (hb : min sample.length st.buttons.length ≤ 256)
    (he : min sample.length st.encoders.length ≤ 256) :
    (inputToUpdates true st (DeviceInput.buttonStateChange sample)).2
        = specDualDiff DeviceStateUpdate.buttonDown DeviceStateUpdate.buttonUp
            sample st.buttons
      ∧ (inputToUpdates true st (DeviceInput.encoderStateChange sample)).2
        = specDualDiff DeviceStateUpdate.encoderDown DeviceStateUpdate.encoderUp
            sample st.encoders := by
  constructor
  · show diffUpdates true _ _ 0 sample st.buttons = _
    rw [diffUpdates_dual_eq _ _ sample st.buttons 0 (by omega)]
    simp only [specDualDiff, Nat.zero_add]
  · show diffUpdates true _ _ 0 sample st.encoders = _
    rw [diffUpdates_dual_eq _ _ sample st.encoders 0 (by omega)]
    simp only [specDualDiff, Nat.zero_add]

/-- Witness for C5: the spec's concrete example, snapshot
`[false, false, true]` with sample `[false, true, true]` yields exactly
`[ButtonDown 1]`. -/
theorem claim_C5_dual_state_diff_witness :
    (inputToUpdates true ⟨[false, false, true], []⟩
        (DeviceInput.buttonStateChange [false, true, true])).2
      = [DeviceStateUpdate.buttonDown 1] := by
  have h := (claim_C5_dual_state_diff ⟨[false, false, true], []⟩ [false, true, true]
    (by decide) (by decide)).1
  exact h.trans (by decide)

/-- Claim C6 (counterexample): with a stored snapshot shorter than the
sample, an index with a true sample bit yields nothing — the zip in
`input_to_updates` truncates — so the output is not the claimed
synthesized click. -/
theorem claim_C6_counterexample :
    (inputToUpdates false ⟨[], []⟩ (DeviceInput.buttonStateChange [true])).2 = []
      ∧ (inputToUpdates false ⟨[], []⟩ (DeviceInput.buttonStateChange [true])).2
          ≠ [DeviceStateUpdate.buttonDown 0, DeviceStateUpdate.buttonUp 0] :=
  ⟨rfl, by decide⟩

/-- Claim C6 (amended): on a single-state device, every index that is
within both the sample and the stored snapshot and whose sample bit is
true yields exactly `Down(i)` then `Up(i)`, regardless of the stored
snapshot's values; false sample bits yield nothing; and the stored
snapshot is overwritten with the sample. -/
theorem claim_C6_single_state_diff (st : DeviceState) (sample : List Bool)
    (hb : min sample.length st.buttons.length ≤ 256)
    (he : min sample.length st.encoders.length ≤ 256) :
    ((inputToUpdates false st (DeviceInput.buttonStateChange sample)).2
        = specSingleDiff DeviceStateUpdate.buttonDown DeviceStateUpdate.buttonUp
            sample st.buttons
      ∧ (inputToUpdates false st (DeviceInput.buttonStateChange sample)).1.buttons
        = sample)
      ∧ ((inputToUpdates false st (DeviceInput.encoderStateChange sample)).2
        = specSingleDiff DeviceStateUpdate.encoderDown DeviceStateUpdate.encoderUp
            sample st.encoders
      ∧ (inputToUpdates false st (DeviceInput.encoderStateChange sample)).1.encoders
        = sample) := by
  refine ⟨⟨?_, rfl⟩, ⟨?_, rfl⟩⟩
  · show diffUpdates false _ _ 0 sample st.buttons = _
    rw [diffUpdates_single_eq _ _ sample st.buttons 0 (by omega)]
    simp only [specSingleDiff, Nat.zero_add]
  · show diffUpdates false _ _ 0 sample st.encoders = _
    rw [diffUpdates_single_eq _ _ sample st.encoders 0 (by omega)]
    simp only [specSingleDiff, Nat.zero_add]

/-- Witness for the amended C6: a single-state sample `[true, false, true]`
against snapshot `[false, false, false]` yields two synthesized clicks,
and the snapshot becomes the sample. -/
theorem claim_C6_single_state_diff_witness :
    (inputToUpdates false ⟨[false, false, false], []⟩
        (DeviceInput.buttonStateChange [true, false, true])).2
      = [DeviceStateUpdate.buttonDown 0, DeviceStateUpdate.buttonUp 0,
         DeviceStateUpdate.buttonDown 2, DeviceStateUpdate.buttonUp 2]
      ∧ (inputToUpdates false ⟨[false, false, false], []⟩
          (DeviceInput.buttonStateChange [true, false, true])).1.buttons
        = [true, false, true] := by
  have h := (claim_C6_single_state_diff ⟨[false, false, false], []⟩ [true, false, true]
    (by decide) (by decide)).1
  exact ⟨h.1.trans (by decide), h.2⟩

/-- Claim C7 (counterexample): the stored snapshot length is not invariant:
a reader created with key_count 2 that processes a 1-element button
sample ends with a 1-element stored button vector, because
`input_to_updates` overwrites the snapshot with the sample vector. -/
theorem claim_C7_counterexample :
    ((inputToUpdates false (initialReaderState 2 1)
        (DeviceInput.buttonStateChange [true])).1.buttons.length ≠ 2) := by
  decide

/-- Claim C7 (amended): the reader starts with snapshot lengths equal to
key_count and encoder_count; twist and no-data samples never change the
stored vectors; a button (encoder) state-change sample preserves the
stored lengths whenever the sample vector has the stored vector's
length — otherwise the stored vector is replaced by the sample and takes
the sample's length. -/
theorem claim_C7_snapshot_lengths (kc ec : Nat) :
    (initialReaderState kc ec).buttons.length = kc
      ∧ (initialReaderState kc ec).encoders.length = ec
      ∧ (∀ (sb : Bool) (st : DeviceState) (ds : List Int),
          (inputToUpdates sb st (DeviceInput.encoderTwist ds)).1 = st)
      ∧ (∀ (sb : Bool) (st : DeviceState),
          (inputToUpdates sb st DeviceInput.noData).1 = st)
      ∧ (∀ (sb : Bool) (st : DeviceState) (bs : List Bool),
          bs.length = st.buttons.length →
          (inputToUpdates sb st (DeviceInput.buttonStateChange bs)).1.buttons.length
              = st.buttons.length
            ∧ (inputToUpdates sb st (DeviceInput.buttonStateChange bs)).1.encoders.length
              = st.encoders.length)
      ∧ (∀ (sb : Bool) (st : DeviceState) (es : List Bool),
          es.length = st.encoders.length →
          (inputToUpdates sb st (DeviceInput.encoderStateChange es)).1.buttons.length
              = st.buttons.length
            ∧ (inputToUpdates sb st (DeviceInput.encoderStateChange es)).1.encoders.length
              = st.encoders.length) := by
  refine ⟨by simp [initialReaderState], by simp [initialReaderState], ?_, ?_, ?_, ?_⟩
  · intro sb st ds
    rfl
  · intro sb st
    rfl
  · intro sb st bs hlen
    exact ⟨hlen, rfl⟩
  · intro sb st es hlen
    exact ⟨rfl, hlen⟩

/-- Witness for the amended C7 at key_count 2, encoder_count 1 and a
length-matching sample. -/
theorem claim_C7_snapshot_lengths_witness :
    (initialReaderState 2 1).buttons.length = 2
      ∧ (inputToUpdates false (initialReaderState 2 1)
          (DeviceInput.buttonStateChange [true, false])).1.buttons.length = 2 := by
  refine ⟨(claim_C7_snapshot_lengths 2 1).1, ?_⟩
  have h := (claim_C7_snapshot_lengths 2 1).2.2.2.2.1 false (initialReaderState 2 1)
    [true, false] (by decide)
  exact h.1.trans (by decide)

/-- Claim C9: an `EncoderTwist` sample yields exactly one
`EncoderTwist(i, delta)` per non-zero delta, in ascending index order,
and leaves the stored state (both snapshot vectors) unchanged. -/
theorem claim_C9_twist (sb : Bool) (st : DeviceState) (ds : List Int)
    (h : ds.length ≤ 256) :
    (inputToUpdates sb st (DeviceInput.encoderTwist ds)).1 = st
      ∧ (inputToUpdates sb st (DeviceInput.encoderTwist ds)).2 = specTwist ds := by
  refine ⟨rfl, ?_⟩
  show twistUpdates 0 ds = _
  rw [twistUpdates_eq ds 0 (by omega)]
  simp only [specTwist, Nat.zero_add]

/-- Witness for C9: the spec's concrete example, deltas `[0, 3, 0, -1]`
yield exactly `[EncoderTwist 1 3, EncoderTwist 3 (-1)]` with the state
untouched. -/
theorem claim_C9_twist_witness :
    (inputToUpdates true ⟨[true], [false]⟩ (DeviceInput.encoderTwist [0, 3, 0, -1])).1
        = ⟨[true], [false]⟩
      ∧ (inputToUpdates true ⟨[true], [false]⟩ (DeviceInput.encoderTwist [0, 3, 0, -1])).2
        = [DeviceStateUpdate.encoderTwist 1 3, DeviceStateUpdate.encoderTwist 3 (-1)] := by
  have h := claim_C9_twist true ⟨[true], [false]⟩ [0, 3, 0, -1] (by decide)
  exact ⟨h.1, h.2.trans (by decide)⟩

/-- Witness for C10 at key 5. -/
theorem claim_C10_clear_key_alias_witness :
    5 < 255 ∧
      (cleFrame 512 5 =
          writeExtendedData 512
            [0x00, 0x43, 0x52, 0x54, 0x00, 0x00, 0x43, 0x4c, 0x45, 0x00, 0x00, 0x00, 5 + 1]
        ∧ cleFrame 512 0xfe = cleFrame 512 0xff) :=
  ⟨by decide, claim_C10_clear_key_alias 512 5 (by decide)⟩
